import Mathlib

/-!
Verification of `fix_csv.py`, a one-pass CSV-rewriting script.

The script reads a CSV file, writes the header through unchanged, looks up
the ordinal of the column named "Variant Fulfillment Service" in the header
(`header.index`, which raises when absent), and then, for each data row,
overwrites the field at that ordinal with the constant "manual" whenever
the row is long enough, writing each row as it goes.

Embedding choices:
- A row is a list of strings (`csv` rows carry no typed schema).
- The reader is modelled as a list of `ReadItem`s: either a successfully
  parsed row, or a parse error raised lazily during iteration (the
  underlying parser can fail at any record; the spec states malformed
  quoting is surfaced as such an error).  The script has no exception
  handling, so an error item terminates the run.
- The effect on the destination is made explicit: `fix_csv` returns the
  list of rows written to the output, in order, together with a flag
  recording whether the run completed without error.  Rows written before
  a failure stay written, exactly as in the Python, where the `with` block
  flushes and closes the output file even when an exception propagates.
-/

namespace FixCsv

/-- A row: an ordered sequence of text fields. -/
abbrev Row := List String

/-- The hardcoded target column name from the script. -/
def targetColumn : String := "Variant Fulfillment Service"

/-- The hardcoded replacement value from the script. -/
def replacementValue : String := "manual"

/-- One item produced by the reader while iterating: a parsed row, or a
parse error raised by the underlying parser at that record. -/
inductive ReadItem where
  | row (r : Row)
  | err
deriving DecidableEq

/-- Python's `list.index`: ordinal of the first occurrence of `needle`, or
`none` when absent (the Python call raises `ValueError` in that case). -/
def index? (needle : String) : List String → Option Nat
  | [] => none
  | x :: xs => if x = needle then some 0 else (index? needle xs).map (· + 1)

/-- The body of the row loop: `if len(row) > fulfillment_col:
row[fulfillment_col] = 'manual'`. -/
def fixRow (col : Nat) (r : Row) : Row :=
  if col < r.length then r.set col replacementValue else r

/-- The row loop: processes reader items in order, writing each fixed row,
and stops at the first parse error.  Returns the rows written by the loop
together with `true` iff the loop ran to completion. -/
def processRows (col : Nat) : List ReadItem → List Row × Bool
  | [] => ([], true)
  | .err :: _ => ([], false)
  | .row r :: rest =>
      let p := processRows col rest
      (fixRow col r :: p.1, p.2)

/-- Outcome of a run: the rows written to the destination, in order, and
whether the run completed without an error propagating. -/
structure RunResult where
  written : List Row
  ok : Bool
deriving DecidableEq

/-- The whole script.  `next(reader)` raises on an empty input; the header
is written before the column lookup, so a failed lookup leaves exactly the
header in the destination; on success every data row is processed by the
row loop. -/
def fix_csv : List ReadItem → RunResult
  | [] => ⟨[], false⟩
  | .err :: _ => ⟨[], false⟩
  | .row header :: rest =>
      match index? targetColumn header with
      | none => ⟨[header], false⟩
      | some col =>
          let p := processRows col rest
          ⟨header :: p.1, p.2⟩

/-- The rows parsed successfully before the first parse error. -/
def rowsBefore : List ReadItem → List Row
  | [] => []
  | .err :: _ => []
  | .row r :: rest => r :: rowsBefore rest

end FixCsv

namespace FixCsv

lemma processRows_fst (col : Nat) (items : List ReadItem) :
    (processRows col items).1 = (rowsBefore items).map (fixRow col) := by
  induction items with
  | nil => rfl
  | cons it rest ih =>
    cases it with
    | row r => simp [processRows, rowsBefore, ih]
    | err => rfl

lemma processRows_snd (col : Nat) (items : List ReadItem) :
    (processRows col items).2 = true ↔ ReadItem.err ∉ items := by
  induction items with
  | nil => simp [processRows]
  | cons it rest ih =>
    cases it with
    | row r => simp [processRows, ih]
    | err => simp [processRows]

lemma rowsBefore_map_row (rows : List Row) :
    rowsBefore (rows.map .row) = rows := by
  induction rows with
  | nil => rfl
  | cons r rest ih => simp [rowsBefore, ih]

lemma err_not_mem_map_row (rows : List Row) :
    ReadItem.err ∉ rows.map ReadItem.row := by
  simp

/-- On an input whose header contains the target column, the written output
is the header followed by the fixed versions of the rows parsed before the
first error, and the run succeeds iff no parse error occurs. -/
lemma fix_csv_run (header : Row) (items : List ReadItem) (col : Nat)
    (hcol : index? targetColumn header = some col) :
    (fix_csv (.row header :: items)).written
        = header :: (rowsBefore items).map (fixRow col)
      ∧ ((fix_csv (.row header :: items)).ok = true ↔ ReadItem.err ∉ items) := by
  simp only [fix_csv, hcol]
  exact ⟨by simp [processRows_fst], by simp [processRows_snd]⟩

/-- On a well-formed input (no parse errors) the written output is the
header followed by every data row with `fixRow` applied. -/
lemma fix_csv_written_ok (header : Row) (rows : List Row) (col : Nat)
    (hcol : index? targetColumn header = some col) :
    (fix_csv (.row header :: rows.map .row)).written
      = header :: rows.map (fixRow col) := by
  have h := (fix_csv_run header (rows.map .row) col hcol).1
  rwa [rowsBefore_map_row] at h

lemma fixRow_length (col : Nat) (r : Row) : (fixRow col r).length = r.length := by
  unfold fixRow
  split <;> simp

lemma fixRow_idem (col : Nat) (r : Row) : fixRow col (fixRow col r) = fixRow col r := by
  unfold fixRow
  split
  · rename_i h
    rw [if_pos (by simpa using h), List.set_set]
  · rfl

lemma fixRow_get_target (col : Nat) (r : Row) (hlen : col < r.length) :
    (fixRow col r)[col]? = some replacementValue := by
  unfold fixRow
  rw [if_pos hlen]
  exact List.getElem?_set_eq_of_lt _ hlen

lemma fixRow_get_other (col : Nat) (r : Row) (j : Nat) (hj : j ≠ col) :
    (fixRow col r)[j]? = r[j]? := by
  unfold fixRow
  split
  · exact List.getElem?_set_ne (Ne.symm hj)
  · rfl

lemma fixRow_short (col : Nat) (r : Row) (hlen : r.length ≤ col) :
    fixRow col r = r := by
  unfold fixRow
  rw [if_neg (by omega)]

lemma index?_first (needle : String) (l : List String) (i : Nat)
    (h1 : l[i]? = some needle) (h2 : ∀ j, j < i → l[j]? ≠ some needle) :
    index? needle l = some i := by
  induction l generalizing i with
  | nil => simp at h1
  | cons x xs ih =>
    by_cases hx : x = needle
    · have hi : i = 0 := by
        by_contra hne
        exact h2 0 (Nat.pos_of_ne_zero hne) (by simp [hx])
      subst hi
      simp [index?, hx]
    · cases i with
      | zero => simp at h1; exact absurd h1 hx
      | succ i' =>
        have h1' : xs[i']? = some needle := by simpa using h1
        have h2' : ∀ j, j < i' → xs[j]? ≠ some needle := by
          intro j hj
          have := h2 (j + 1) (by omega)
          simpa using this
        simp [index?, hx, ih i' h1' h2']

end FixCsv

namespace FixCsv

/-- C1: on a valid input whose header's first occurrence of
"Variant Fulfillment Service" is at ordinal `col`, every data row with more
than `col` fields is written with the field at ordinal `col` equal to
"manual", regardless of its original value. -/
theorem c1_long_rows_get_manual (header : Row) (rows : List Row) (col : Nat)
    (hcol : index? targetColumn header = some col)
    (i : Nat) (r : Row) (hi : rows[i]? = some r) (hlen : col < r.length) :
    (fix_csv (.row header :: rows.map .row)).written[i + 1]? = some (fixRow col r)
      ∧ (fixRow col r)[col]? = some replacementValue := by
  rw [fix_csv_written_ok header rows col hcol]
  constructor
  · simp [hi]
  · exact fixRow_get_target col r hlen

/-- Witness for C1 on the spec's own example row. -/
theorem c1_long_rows_get_manual_witness :
    (fix_csv [.row ["Title", targetColumn, "Price"],
              .row ["Widget", "third-party", "10"]]).written[1]?
        = some (fixRow 1 ["Widget", "third-party", "10"])
      ∧ (fixRow 1 ["Widget", "third-party", "10"])[1]? = some replacementValue :=
  c1_long_rows_get_manual ["Title", targetColumn, "Price"]
    [["Widget", "third-party", "10"]] 1 (by decide) 0
    ["Widget", "third-party", "10"] rfl (by decide)

/-- C2: when the header lacks the target column, the lookup fails after the
header has been written and before any data row is processed: the run
aborts with exactly the header in the destination. -/
theorem c2_missing_column_fails_early (header : Row) (items : List ReadItem)
    (h : index? targetColumn header = none) :
    (fix_csv (.row header :: items)).ok = false
      ∧ (fix_csv (.row header :: items)).written = [header] := by
  simp [fix_csv, h]

/-- Witness for C2: a header without the target column. -/
theorem c2_missing_column_fails_early_witness :
    (fix_csv [.row ["Title", "Price"], .row ["Widget", "10"]]).ok = false
      ∧ (fix_csv [.row ["Title", "Price"], .row ["Widget", "10"]]).written
          = [["Title", "Price"]] :=
  c2_missing_column_fails_early ["Title", "Price"] [.row ["Widget", "10"]]
    (by decide)

/-- C3 counterexample: the operation is not all-or-nothing.  On an input
whose third record is malformed, the run aborts with the header and one
fixed data row already in the destination: more than just a header, and
certainly not nothing. -/
theorem c3_counterexample :
    ¬ ((fix_csv [.row [targetColumn], .row ["x"], .err]).ok = true
        ∨ (fix_csv [.row [targetColumn], .row ["x"], .err]).written.length ≤ 1) := by
  decide

/-- C3 amended: on any input whose header contains the target column, the
destination ends up holding the header followed by the fixed versions of
exactly the rows parsed before the first error; the run succeeds iff no
parse error occurs, in which case that is the whole file.  Partial output
(header plus a proper subset of the data rows) is possible on failure. -/
theorem c3_partial_output (header : Row) (items : List ReadItem) (col : Nat)
    (hcol : index? targetColumn header = some col) :
    (fix_csv (.row header :: items)).written
        = header :: (rowsBefore items).map (fixRow col)
      ∧ ((fix_csv (.row header :: items)).ok = true ↔ ReadItem.err ∉ items) :=
  fix_csv_run header items col hcol

/-- Witness for the amended C3 on the counterexample input. -/
theorem c3_partial_output_witness :
    (fix_csv [.row [targetColumn], .row ["x"], .err]).written
        = [targetColumn] :: (rowsBefore [.row ["x"], .err]).map (fixRow 0)
      ∧ ((fix_csv [.row [targetColumn], .row ["x"], .err]).ok = true
          ↔ ReadItem.err ∉ [ReadItem.row ["x"], ReadItem.err]) :=
  c3_partial_output [targetColumn] [.row ["x"], .err] 0 (by decide)

/-- C4: a data row with at most `col` fields is written byte-identical to
the input row: no padding, no error. -/
theorem c4_short_rows_unchanged (header : Row) (rows : List Row) (col : Nat)
    (hcol : index? targetColumn header = some col)
    (i : Nat) (r : Row) (hi : rows[i]? = some r) (hlen : r.length ≤ col) :
    (fix_csv (.row header :: rows.map .row)).written[i + 1]? = some r := by
  rw [fix_csv_written_ok header rows col hcol]
  simp [hi, fixRow_short col r hlen]

/-- Witness for C4 on the spec's short-row shape. -/
theorem c4_short_rows_unchanged_witness :
    (fix_csv [.row ["Title", "Price", targetColumn], .row ["Gadget", "9"]]).written[1]?
      = some ["Gadget", "9"] :=
  c4_short_rows_unchanged ["Title", "Price", targetColumn] [["Gadget", "9"]] 2
    (by decide) 0 ["Gadget", "9"] rfl (by decide)

/-- C5: on a valid input whose header contains the target column, the
output row count equals the input row count (header included), and row
`i` of the input appears as row `i` of the output. -/
theorem c5_row_count_and_order (header : Row) (rows : List Row) (col : Nat)
    (hcol : index? targetColumn header = some col) :
    (fix_csv (.row header :: rows.map .row)).written.length = rows.length + 1
      ∧ ∀ i : Nat, (fix_csv (.row header :: rows.map .row)).written[i + 1]?
          = (rows[i]?).map (fixRow col) := by
  rw [fix_csv_written_ok header rows col hcol]
  constructor
  · simp
  · intro i
    simp

/-- Witness for C5. -/
theorem c5_row_count_and_order_witness :
    (fix_csv [.row [targetColumn, "Price"], .row ["a", "b"], .row ["c"]]).written.length
        = 2 + 1
      ∧ ∀ i : Nat,
          (fix_csv [.row [targetColumn, "Price"], .row ["a", "b"], .row ["c"]]).written[i + 1]?
            = ([["a", "b"], ["c"]][i]?).map (fixRow 0) :=
  c5_row_count_and_order [targetColumn, "Price"] [["a", "b"], ["c"]] 0 (by decide)

/-- C6: in a data row long enough to contain the target ordinal, every
field at an ordinal other than the target ordinal is unchanged between
input and output; only the target field is replaced. -/
theorem c6_other_fields_unchanged (header : Row) (rows : List Row) (col : Nat)
    (hcol : index? targetColumn header = some col)
    (i : Nat) (r : Row) (hi : rows[i]? = some r) (hlen : col < r.length)
    (j : Nat) (hj : j ≠ col) :
    (fix_csv (.row header :: rows.map .row)).written[i + 1]? = some (fixRow col r)
      ∧ (fixRow col r)[j]? = r[j]? := by
  rw [fix_csv_written_ok header rows col hcol]
  exact ⟨by simp [hi], fixRow_get_other col r j hj⟩

/-- Witness for C6: ordinal 0 of the example row is untouched. -/
theorem c6_other_fields_unchanged_witness :
    (fix_csv [.row ["Title", targetColumn], .row ["Widget", "ship"]]).written[1]?
        = some (fixRow 1 ["Widget", "ship"])
      ∧ (fixRow 1 ["Widget", "ship"])[0]? = ["Widget", "ship"][0]? :=
  c6_other_fields_unchanged ["Title", targetColumn] [["Widget", "ship"]] 1
    (by decide) 0 ["Widget", "ship"] rfl (by decide) 0 (by decide)

/-- C7: the first row written to the destination is the header, unchanged,
whether or not the column lookup succeeds afterwards. -/
theorem c7_header_unchanged (header : Row) (items : List ReadItem) :
    (fix_csv (.row header :: items)).written.head? = some header := by
  cases h : index? targetColumn header <;> simp [fix_csv, h]

/-- C8: the transform is idempotent: feeding the written output back in as
the input reproduces that same output, with a successful run. -/
theorem c8_idempotent (header : Row) (rows : List Row) (col : Nat)
    (hcol : index? targetColumn header = some col) :
    fix_csv ((fix_csv (.row header :: rows.map .row)).written.map .row)
      = ⟨(fix_csv (.row header :: rows.map .row)).written, true⟩ := by
  rw [fix_csv_written_ok header rows col hcol]
  have hw : fix_csv (.row header :: (rows.map (fixRow col)).map .row)
      = ⟨header :: ((rows.map (fixRow col)).map (fixRow col)),
         (processRows col ((rows.map (fixRow col)).map .row)).2⟩ := by
    simp only [fix_csv, hcol]
    exact congrArg (RunResult.mk · _) (by rw [processRows_fst, rowsBefore_map_row])
  simp only [List.map_cons, hw]
  have hmap : (rows.map (fixRow col)).map (fixRow col) = rows.map (fixRow col) := by
    rw [List.map_map]
    exact List.map_congr_left fun r _ => fixRow_idem col r
  have hok : (processRows col ((rows.map (fixRow col)).map .row)).2 = true :=
    (processRows_snd col _).mpr (err_not_mem_map_row _)
  rw [hmap, hok]

/-- Witness for C8. -/
theorem c8_idempotent_witness :
    fix_csv ((fix_csv [.row [targetColumn, "P"], .row ["x", "y"]]).written.map .row)
      = ⟨(fix_csv [.row [targetColumn, "P"], .row ["x", "y"]]).written, true⟩ :=
  c8_idempotent [targetColumn, "P"] [["x", "y"]] 0 (by decide)

/-- C9: a parse error surfaced by the reader at any record is fatal: the
script has no handler, so the error propagates and the run terminates
unsuccessfully. -/
theorem c9_parse_error_fatal (input : List ReadItem)
    (h : ReadItem.err ∈ input) :
    (fix_csv input).ok = false := by
  cases input with
  | nil => simp at h
  | cons it rest =>
    cases it with
    | err => rfl
    | row header =>
      have hrest : ReadItem.err ∈ rest := by simpa using h
      cases hc : index? targetColumn header with
      | none => simp [fix_csv, hc]
      | some col =>
        simp only [fix_csv, hc]
        by_contra hok
        rw [Bool.not_eq_false] at hok
        exact (processRows_snd col rest).mp hok hrest

/-- Witness for C9: a malformed second record. -/
theorem c9_parse_error_fatal_witness :
    (fix_csv [.row [targetColumn], .err]).ok = false :=
  c9_parse_error_fatal [.row [targetColumn], .err] (by decide)

/-- C10: when the header contains the target name more than once, the
ordinal used is the first occurrence, and fields at every other ordinal —
in particular at later duplicate occurrences — are left untouched. -/
theorem c10_first_occurrence_wins (header : Row) (i : Nat)
    (h1 : header[i]? = some targetColumn)
    (h2 : ∀ j, j < i → header[j]? ≠ some targetColumn) :
    index? targetColumn header = some i
      ∧ ∀ (r : Row) (j : Nat), j ≠ i → (fixRow i r)[j]? = r[j]? :=
  ⟨index?_first targetColumn header i h1 h2,
   fun r j hj => fixRow_get_other i r j hj⟩

/-- Witness for C10: a header with the target name at ordinals 0 and 2. -/
theorem c10_first_occurrence_wins_witness :
    index? targetColumn [targetColumn, "Price", targetColumn] = some 0
      ∧ ∀ (r : Row) (j : Nat), j ≠ 0 → (fixRow 0 r)[j]? = r[j]? :=
  c10_first_occurrence_wins [targetColumn, "Price", targetColumn] 0 (by decide)
    (by intro j hj; omega)

end FixCsv
